import Mathlib

/-
Verification of the AudioHook websocket server (src/server/python).
The Python code is shallowly embedded: pydantic models become structures,
stateful methods become explicit state-passing functions, and Python
exceptions become an explicit error type threaded through Except.
-/

namespace AudioHook

/-- Python exceptions that the embedded code can raise. -/
inductive PyError where
  | attributeError (attr : String)
  | keyError (key : String)
  | indexError (i : Nat)
  | zeroDivisionError
  | runtimeError (msg : String)
deriving DecidableEq, Repr

def isOkE {α : Type} : Except PyError α → Bool
  | .ok _ => true
  | .error _ => false

/-- Modelled from the spec: enums.py is not under src/; section 6 of the spec lists the
disconnect reasons as the enum values `unauthorized` and `error`. -/
inductive DisconnectReason where
  | error
  | unauthorized
deriving DecidableEq, Repr

/-- Modelled from the spec: enums.py is not under src/; the outbound message kinds are
listed in sections 3 and 6 of the spec
(`opened`, `pong`, `updated`, `closed`, `disconnect`, `event`). -/
inductive ServerMessageType where
  | opened
  | pong
  | updated
  | closed
  | disconnect
  | event
deriving DecidableEq, Repr

/-- Parameters payload of an outbound message: either the disconnect parameters
(reason and info, DisconnectMessageParameters in models.py) or an opaque payload passed
through unchanged by send_message. -/
inductive MsgParams where
  | disconnectP (reason : DisconnectReason) (info : String)
  | payload (entries : List (String × String))
deriving DecidableEq, Repr

/-- Embeds ServerMessageBase / DisconnectMessage from models.py: the envelope fields
version, type, seq, clientseq, id and the parameters. -/
structure OutMsg where
  version : String
  type : ServerMessageType
  seq : Nat
  clientseq : Nat
  id : String
  params : MsgParams
deriving DecidableEq, Repr

/-- A websocket handle, recording the JSON messages sent over it and the close code
passed to close. -/
structure Socket where
  sent : List OutMsg
  closeCode : Option Nat
deriving DecidableEq, Repr

/-- The PushAudioInputStream fed by handle_audio_frame and closed at shutdown. -/
structure AudioStream where
  data : List Nat
  closed : Bool
deriving DecidableEq, Repr

/-- Outcome of an awaited asyncio task: normal completion or a raised exception. -/
inductive TaskOutcome where
  | success
  | failure (msg : String)
deriving DecidableEq, Repr

/-- Embeds MediaChannelInfo from models.py. -/
structure MediaChannelInfo where
  type : String
  codec : String
  sample_rate : Nat
  channels : List String
deriving DecidableEq, Repr

/-- Embeds AzureAISpeechSession from models.py: audio_buffer, raw_audio, media and
recognize_task are its only declared fields.  initialize_session also passes assist and
assist_futures keywords, but pydantic silently drops undeclared keywords at
construction, so no such state exists on the session.  The recognition task is
modelled by the outcome of its recognition-loop section; what awaiting the task yields
is derived in run_recognize_task. -/
structure SpeechSession where
  audio_buffer : AudioStream
  raw_audio : List Nat
  media : MediaChannelInfo
  recognize_task : TaskOutcome
deriving DecidableEq, Repr

/-- Embeds WebSocketSessionStorage from models.py: client_seq, server_seq,
conversation_id and speech_session.  models.py declares no further fields; in
particular it declares no websocket field, and no code in the repository ever assigns
one. -/
structure WsSessionStorage where
  client_seq : Nat
  server_seq : Nat
  conversation_id : Option String
  speech_session : Option SpeechSession
deriving DecidableEq, Repr

/-- A freshly constructed WebSocketSessionStorage, as registered by handle_websocket:
all fields take their models.py defaults (counters 0, no conversation, no provider
session). -/
def initWs : WsSessionStorage := ⟨0, 0, none, none⟩

/-- The active_ws_sessions table, keyed by session id. -/
abbrev Sessions := List (String × WsSessionStorage)

def lookupS (ss : Sessions) (k : String) : Option WsSessionStorage :=
  match ss with
  | [] => none
  | (k2, v) :: rest => if k2 = k then some v else lookupS rest k

/-- Python dict assignment: afterwards there is a single binding for the key. -/
def insertS (ss : Sessions) (k : String) (v : WsSessionStorage) : Sessions :=
  (k, v) :: ss.filter (fun p => !decide (p.1 = k))

/-- The fields of a validated client message that send_message reads: id and seq
(ClientMessageBase in models.py). -/
structure ClientMsg where
  id : String
  seq : Nat
deriving DecidableEq, Repr

/-- The client_message argument handed to SessionManager.send_message: either a
validated client message, or the session-id-only dict that the speech provider passes
on the event path. -/
inductive ClientMsgArg where
  | message (m : ClientMsg)
  | idDict (session_id : String)
deriving DecidableEq, Repr

/-- One invocation of send_message: the message type, the client_message argument and
the parameters payload. -/
structure SendCall where
  type : ServerMessageType
  arg : ClientMsgArg
  params : MsgParams
deriving DecidableEq, Repr

/-- Embeds SessionManager.send_message.  Reading the id attribute of a plain dict
raises AttributeError; a session id absent from active_ws_sessions raises KeyError.
On success the stored server_seq is incremented pre-send and the built message carries
the incremented counter as seq and the seq of the client message as clientseq. -/
def send_message (ss : Sessions) (c : SendCall) : Except PyError (Sessions × OutMsg) :=
  match c.arg with
  | .idDict _ => .error (.attributeError "id")
  | .message m =>
    match lookupS ss m.id with
    | none => .error (.keyError m.id)
    | some ws =>
      let ws2 : WsSessionStorage := { ws with server_seq := ws.server_seq + 1 }
      .ok (insertS ss m.id ws2,
        { version := "2", type := c.type, seq := ws2.server_seq,
          clientseq := m.seq, id := m.id, params := c.params })

/-- Runs a list of send_message calls against the session table, collecting the
messages that were actually sent; a failed call changes nothing (the write is inside a
try block, and the attribute or key errors occur before any state change). -/
def runSends (ss : Sessions) : List SendCall → Sessions × List OutMsg
  | [] => (ss, [])
  | c :: cs =>
    match send_message ss c with
    | .ok (ss2, m) =>
      let r := runSends ss2 cs
      (r.1, m :: r.2)
    | .error _ => runSends ss cs

/-- Python `session_id or "unknown"`: None and the empty string both fall back. -/
def orUnknown (session_id : Option String) : String :=
  if session_id.getD "" = "" then "unknown" else session_id.getD ""

/-- Embeds the DisconnectMessage built by SessionManager.disconnect: version 2, type
disconnect, seq 1, clientseq 1, id the session id (or unknown), and the reason/info
parameters. -/
def disconnect_message (reason : DisconnectReason) (info : String)
    (session_id : Option String) : OutMsg :=
  { version := "2", type := .disconnect, seq := 1, clientseq := 1,
    id := orUnknown session_id, params := .disconnectP reason info }

/-- Embeds SessionManager.disconnect.  When a websocket argument is given the message
goes out on it and it is closed with the code.  Otherwise, when the session id is
registered, the code reads ws_session.websocket, an attribute that is absent from
WebSocketSessionStorage and nowhere assigned, so the call raises AttributeError.  With
neither, a warning is logged and nothing is sent or closed. -/
def disconnect (ss : Sessions) (reason : DisconnectReason) (info : String) (code : Nat)
    (session_id : Option String) (ws : Option Socket) : Except PyError (Option Socket) :=
  let dm := disconnect_message reason info session_id
  match ws with
  | some sock => .ok (some { sent := sock.sent ++ [dm], closeCode := some code })
  | none =>
    match lookupS ss (orUnknown session_id) with
    | some _ => .error (.attributeError "websocket")
    | none => .ok none

/-- Header values of the websocket upgrade request; a missing header is modelled as the
empty string. -/
structure Headers where
  session_id : String
  x_api_key : String
  correlation_id : String
  signature_input : String
  signature : String
deriving DecidableEq, Repr

/-- Server-side environment: WEBSOCKET_SERVER_API_KEY and
WEBSOCKET_SERVER_CLIENT_SECRET (os.getenv, none when unset). -/
structure Env where
  api_key : Option String
  client_secret : Option String
deriving DecidableEq, Repr

/-- Decision taken by the header checks of handle_websocket. -/
inductive GateResult where
  | reject (reason : DisconnectReason) (info : String) (code : Nat)
      (session_id : Option String)
  | accepted (session_id : String)
deriving DecidableEq, Repr

/-- Embeds the header checks of SessionManager.handle_websocket in source order: empty
session id, wrong api key, then the check that rejects only when signature input,
signature and the configured client secret are all absent or empty. -/
def handle_websocket_gate (hdr : Headers) (env : Env) : GateResult :=
  if hdr.session_id = "" then
    .reject .error "No session ID provided" 1008 none
  else if ¬ env.api_key = some hdr.x_api_key then
    .reject .unauthorized "Invalid API Key" 3000 (some hdr.session_id)
  else if hdr.signature_input = "" ∧ hdr.signature = "" ∧ env.client_secret.getD "" = "" then
    .reject .unauthorized "Invalid signature" 3000 (some hdr.session_id)
  else
    .accepted hdr.session_id

/-- One connection through the gate: a rejected connection is answered via disconnect
on the raw socket and registers nothing; an accepted one registers a fresh
WebSocketSessionStorage under the session id. -/
def handle_connection (ss : Sessions) (hdr : Headers) (env : Env) (sock : Socket) :
    Except PyError (Option Socket × Sessions) :=
  match handle_websocket_gate hdr env with
  | .reject reason info code sid =>
    (disconnect ss reason info code sid (some sock)).map (fun s => (s, ss))
  | .accepted sid => .ok (some sock, insertS ss sid initWs)

/-- The outbound messages of one session: a rejected connection carries exactly the
disconnect reply sent over the raw socket; an accepted one carries the messages
produced through send_message for that session id (replies and provider events all go
through the stored send_message callback). -/
def sessionWire (hdr : Headers) (env : Env) (calls : List SendCall) : List OutMsg :=
  match handle_websocket_gate hdr env with
  | .reject reason info code sid =>
    match disconnect [] reason info code sid (some { sent := [], closeCode := none }) with
    | .ok (some s) => s.sent
    | _ => []
  | .accepted sid =>
    ((runSends (insertS [] sid initWs) calls).2).filter (fun m => decide (m.id = sid))

/-- PushAudioInputStream.write; the writeFails oracle covers SDK write failures. -/
def stream_write (s : AudioStream) (data : List Nat) (writeFails : Bool) :
    Except PyError AudioStream :=
  if writeFails then .error (.runtimeError "write")
  else .ok { s with data := s.data ++ data }

/-- Embeds AzureAISpeechProvider.handle_audio_frame: a never-initialized session logs
an error and returns unchanged; a write failure is caught and logged; nothing
propagates to the caller. -/
def handle_audio_frame (session_id : String) (ws : WsSessionStorage)
    (media : MediaChannelInfo) (data : List Nat) (writeFails : Bool) :
    Except PyError (WsSessionStorage × List String) :=
  match ws.speech_session with
  | none => .ok (ws, ["[" ++ session_id ++ "] Session not initialized."])
  | some sp =>
    match stream_write sp.audio_buffer data writeFails with
    | .ok buf =>
      .ok ({ ws with speech_session := some { sp with audio_buffer := buf } }, [])
    | .error _ => .ok (ws, ["[" ++ session_id ++ "] Write error."])

/-- Embeds AzureAISpeechProvider._await_pending_assist on this source: its first
statement reads speech_session.assist_futures, but AzureAISpeechSession declares no
assist_futures field (pydantic silently dropped that keyword at construction in
initialize_session), so the read raises AttributeError before anything is awaited. -/
def await_pending_assist (_ws : WsSessionStorage) : PyError :=
  .attributeError "assist_futures"

/-- What awaiting speech_session.recognize_task yields on this source: _recognize_speech
runs the recognition loop and then calls _await_pending_assist, whose attribute read
raises; so the awaited task surfaces the loop section's own exception when there is
one, and otherwise the AttributeError.  It never completes normally, and the assist
tasks spawned during recognition are never awaited (nor, for the same missing field,
ever recorded: the assist_futures.append in _on_recognized raises too). -/
def run_recognize_task (ws : WsSessionStorage) (sp : SpeechSession) : PyError :=
  match sp.recognize_task with
  | .failure m => .runtimeError m
  | .success => await_pending_assist ws

/-- Python str of an exception, as interpolated into the error logs. -/
def describeError : PyError → String
  | .attributeError a => "AttributeError: " ++ a
  | .keyError k => "KeyError: " ++ k
  | .indexError i => "IndexError: " ++ toString i
  | .zeroDivisionError => "ZeroDivisionError"
  | .runtimeError m => m

/-- Observable effects of AzureAISpeechProvider.shutdown_session. -/
structure ShutdownResult where
  closeAttempted : Bool
  bufferClosed : Bool
  taskAwaited : Bool
  assistAwaited : Bool
  taskError : Option PyError
  logs : List String
  finalized : Bool
deriving DecidableEq, Repr

/-- Embeds AzureAISpeechProvider.shutdown_session on this source: close the push stream
(a close error is caught and logged), await the recognition task — which always raises
here, see run_recognize_task — with the exception caught and logged, never propagated,
then invoke the finalize callback when one is supplied.  No derived assist work is
awaited.  An uninitialized session only logs an error and returns. -/
def shutdown_session (session_id : String) (ws : WsSessionStorage)
    (closeFails : Bool) (hasFinalize : Bool) : Except PyError ShutdownResult :=
  match ws.speech_session with
  | none =>
    .ok { closeAttempted := false, bufferClosed := false, taskAwaited := false,
          assistAwaited := false, taskError := none,
          logs := ["[" ++ session_id ++ "] Session not initialized."],
          finalized := false }
  | some sp =>
    let closeLogs :=
      if closeFails then ["[" ++ session_id ++ "] Close error."] else []
    let e := run_recognize_task ws sp
    .ok { closeAttempted := true, bufferClosed := !closeFails,
          taskAwaited := true, assistAwaited := false, taskError := some e,
          logs := closeLogs
            ++ ["[" ++ session_id ++ "] Recognition error: " ++ describeError e],
          finalized := hasFinalize }

/-- Half-even rounding of t divided by 100000, the number of hundredths of a second in
t ticks of 100 nanoseconds: the exact-arithmetic counterpart of the Python rendering of
t / 10_000_000 with two decimal places.  (Python formats the binary double nearest to
the quotient; the two agree except on ties of the exact quotient or gigantic tick
counts beyond double precision.) -/
def roundHundredths (t : Nat) : Nat :=
  if t % 100000 < 50000 then t / 100000
  else if 50000 < t % 100000 then t / 100000 + 1
  else if (t / 100000) % 2 = 0 then t / 100000 else t / 100000 + 1

def pad2 (n : Nat) : String :=
  if n < 10 then "0" ++ toString n else toString n

/-- Embeds the conversion, repeated verbatim at every emission site, of 100ns ticks t
to an ISO-8601 duration string: PT, then t / 10_000_000 seconds rendered with exactly
two decimal places, then S. -/
def fmtTicks (t : Nat) : String :=
  "PT" ++ toString (roundHundredths t / 100) ++ "." ++ pad2 (roundHundredths t % 100)
    ++ "S"

/-- A word of the detailed recognition result (NBest Words entry): the Word text, the
optional Confidence, and Offset and Duration in 100ns ticks. -/
structure WordInfo where
  word : String
  confidence : Option ℚ
  offset : Nat
  duration : Nat
deriving DecidableEq, Repr

/-- A token of the transcript entity (the uuid-valued id field is omitted). -/
structure Token where
  type : String
  value : String
  confidence : ℚ
  offset : String
  duration : String
  language : String
deriving DecidableEq, Repr

structure Alternative where
  confidence : ℚ
  languages : List String
  transcript : String
  tokens : List Token
deriving DecidableEq, Repr

structure TranscriptEntityData where
  channelId : String
  isFinal : Bool
  offset : String
  duration : String
  alternatives : List Alternative
deriving DecidableEq, Repr

structure TranscriptEntity where
  type : String
  data : TranscriptEntityData
deriving DecidableEq, Repr

def defaultConfidence : ℚ := 85 / 100

/-- Embeds build_transcript_entity (event_entity_builder.py); the random uuid id field
is omitted and the Python language parameter defaults to en-US at the call sites.  The
alternative confidence divides the summed word confidences by len(words) with no
guard, so Python raises ZeroDivisionError on an empty words list. -/
def build_transcript_entity (channel_id : String) (transcript_text : String)
    (words : List WordInfo) (is_final : Bool) (offset : Nat) (duration : Nat)
    (language : String) : Except PyError TranscriptEntity :=
  let token_data : List Token := words.map (fun w =>
    { type := "word", value := w.word,
      confidence := w.confidence.getD defaultConfidence,
      offset := fmtTicks w.offset, duration := fmtTicks w.duration,
      language := language })
  if words.length = 0 then .error .zeroDivisionError
  else
    .ok { type := "transcript",
          data :=
            { channelId := channel_id, isFinal := is_final,
              offset := fmtTicks offset, duration := fmtTicks duration,
              alternatives :=
                [{ confidence :=
                     ((words.map (fun w => w.confidence.getD defaultConfidence)).sum)
                       / (words.length : ℚ),
                   languages := [language], transcript := transcript_text,
                   tokens := token_data }] } }

/-- An agent-assist utterance (build_agent_assist_utterance; the uuid id is omitted). -/
structure Utterance where
  position : String
  duration : String
  text : String
  language : String
  confidence : ℚ
  channel : String
  isFinal : Bool
deriving DecidableEq, Repr

/-- Embeds build_agent_assist_utterance (event_entity_builder.py). -/
def build_agent_assist_utterance (position : String) (text : String) (language : String)
    (confidence : ℚ) (channel : String) (is_final : Bool) (duration : String) :
    Utterance :=
  { position := position, duration := duration, text := text, language := language,
    confidence := confidence, channel := channel, isFinal := is_final }

/-- The utterance built inside AzureAISpeechProvider.handle_agent_assist when a summary
is produced: the position and duration convert the tick values the handler was given
by _on_recognized. -/
def handle_agent_assist_utterance (offset : Nat) (duration : Nat) (text : String)
    (confidence : ℚ) : Utterance :=
  build_agent_assist_utterance (fmtTicks offset) text "en-US" confidence "CUSTOMER"
    true (fmtTicks duration)

structure NBestEntry where
  words : Option (List WordInfo)
deriving DecidableEq, Repr

/-- The fields of the detailed recognition JSON that _on_recognized reads; an absent
key is none. -/
structure RecognitionResult where
  status : Option String
  text : String
  offset : Option Nat
  duration : Option Nat
  nbest : Option (List NBestEntry)
  channel : Option Nat
deriving DecidableEq, Repr

/-- Embeds the words extraction of _on_recognized: an absent NBest key falls back to a
one-empty-dict list whose first entry has no Words key, giving the empty list; a
present but empty NBest list makes the index 0 access raise. -/
def extract_words (r : RecognitionResult) : Except PyError (List WordInfo) :=
  match r.nbest with
  | none => .ok []
  | some [] => .error (.indexError 0)
  | some (e :: _) => .ok (e.words.getD [])

/-- Embeds the normalize_transcript_text closure of _on_recognized. -/
def normalize_transcript_text (text : String) : String :=
  match text.data with
  | [] => text
  | c :: rest =>
    let lastC := (c :: rest).getLast (by simp)
    if ¬ (lastC = '.' ∨ lastC = '!' ∨ lastC = '?') then
      String.mk (c.toUpper :: rest) ++ "."
    else if ¬ c.isUpper then
      String.mk (c.toUpper :: rest)
    else text

/-- Embeds TranscriptItem from models.py. -/
structure TranscriptItem where
  channel : Option Nat
  text : String
  start : String
  «end» : String
deriving DecidableEq, Repr

/-- The values _on_recognized produces: the transcript item it persists, the transcript
entity it emits, and the offset and duration ticks it hands to handle_agent_assist. -/
structure OnRecognizedOut where
  item : TranscriptItem
  entity : TranscriptEntity
  assist_offset : Nat
  assist_duration : Nat
deriving DecidableEq, Repr

/-- Embeds the data flow of AzureAISpeechProvider._on_recognized: the initial-silence
guard, text normalization, the tick-to-duration conversions for the transcript item,
the transcript entity build, and the first-word offset and result duration handed to
handle_agent_assist. -/
def on_recognized (r : RecognitionResult) (is_multichannel : Bool) :
    Except PyError (Option OnRecognizedOut) :=
  if r.status = some "InitialSilenceTimeout" then .ok none
  else
    let text := normalize_transcript_text r.text
    let offset := r.offset.getD 0
    let duration := r.duration.getD 0
    match extract_words r with
    | .error e => .error e
    | .ok words =>
      let channel := if is_multichannel then r.channel else some 1
      let item : TranscriptItem :=
        { channel := channel, text := text,
          start := fmtTicks offset, «end» := fmtTicks (offset + duration) }
      match build_transcript_entity "CUSTOMER" text words true offset duration "en-US" with
      | .error e => .error e
      | .ok entity =>
        let first_word_offset :=
          match words with
          | [] => offset
          | w :: _ => w.offset
        .ok (some { item := item, entity := entity,
                    assist_offset := first_word_offset,
                    assist_duration := duration })

/- ===== Helper lemmas ===== -/

theorem lookupS_filter_ne (ss : Sessions) (k k2 : String) (h : k2 ≠ k) :
    lookupS (ss.filter (fun p => !decide (p.1 = k))) k2 = lookupS ss k2 := by
  induction ss with
  | nil => rfl
  | cons p rest ih =>
    by_cases hp : p.1 = k
    · have hk : ¬ k = k2 := fun hq => h hq.symm
      simp [List.filter_cons, hp, lookupS, hk, ih]
    · simp [List.filter_cons, hp, lookupS, ih]

theorem lookupS_insertS_self (ss : Sessions) (k : String) (v : WsSessionStorage) :
    lookupS (insertS ss k v) k = some v := by
  simp [insertS, lookupS]

theorem lookupS_insertS_ne (ss : Sessions) (k k2 : String) (v : WsSessionStorage)
    (h : k2 ≠ k) :
    lookupS (insertS ss k v) k2 = lookupS ss k2 := by
  have hk : ¬ k = k2 := fun hq => h hq.symm
  simp [insertS, lookupS, hk, lookupS_filter_ne ss k k2 h]

theorem le_of_mem_range' {n s m : Nat} (h : m ∈ List.range' s n) : s ≤ m := by
  induction n generalizing s with
  | zero => simp [List.range'] at h
  | succ n ih =>
    rw [List.range'_succ] at h
    rcases List.mem_cons.mp h with h1 | h2
    · omega
    · have := ih h2
      omega

theorem pairwise_lt_range'_seq (n s : Nat) :
    (List.range' s n).Pairwise (· < ·) := by
  induction n generalizing s with
  | zero => simp [List.range']
  | succ n ih =>
    rw [List.range'_succ]
    refine List.Pairwise.cons ?_ (ih (s + 1))
    intro b hb
    have := le_of_mem_range' hb
    omega

/-- Does a send call target the given session with a validated client message? -/
def targets (sid : String) (c : SendCall) : Bool :=
  match c.arg with
  | .message m => decide (m.id = sid)
  | .idDict _ => false

theorem runSends_seqs (calls : List SendCall) (ss : Sessions) (sid : String)
    (ws : WsSessionStorage) (h : lookupS ss sid = some ws) :
    (((runSends ss calls).2).filter (fun m => decide (m.id = sid))).map (fun m => m.seq)
      = List.range' (ws.server_seq + 1) ((calls.filter (targets sid)).length) := by
  induction calls generalizing ss ws with
  | nil => simp [runSends]
  | cons c cs ih =>
    cases harg : c.arg with
    | idDict s =>
      have hsm : send_message ss c = .error (.attributeError "id") := by
        simp [send_message, harg]
      simp [runSends, hsm, List.filter_cons, targets, harg, ih ss ws h]
    | message m =>
      by_cases hid : m.id = sid
      · subst hid
        have hsm : send_message ss c
            = .ok (insertS ss m.id { ws with server_seq := ws.server_seq + 1 },
                { version := "2", type := c.type, seq := ws.server_seq + 1,
                  clientseq := m.seq, id := m.id, params := c.params }) := by
          simp [send_message, harg, h]
        have h2 : lookupS (insertS ss m.id { ws with server_seq := ws.server_seq + 1 })
            m.id = some { ws with server_seq := ws.server_seq + 1 } :=
          lookupS_insertS_self ss m.id _
        have ihr := ih
          (insertS ss m.id { ws with server_seq := ws.server_seq + 1 })
          { ws with server_seq := ws.server_seq + 1 } h2
        simp [runSends, hsm, List.filter_cons, targets, harg, ihr,
          List.range'_succ]
      · cases hl : lookupS ss m.id with
        | none =>
          have hsm : send_message ss c = .error (.keyError m.id) := by
            simp [send_message, harg, hl]
          simp [runSends, hsm, List.filter_cons, targets, harg, hid, ih ss ws h]
        | some w2 =>
          have hsm : send_message ss c
              = .ok (insertS ss m.id { w2 with server_seq := w2.server_seq + 1 },
                  { version := "2", type := c.type, seq := w2.server_seq + 1,
                    clientseq := m.seq, id := m.id, params := c.params }) := by
            simp [send_message, harg, hl]
          have h2 : lookupS (insertS ss m.id { w2 with server_seq := w2.server_seq + 1 })
              sid = some ws := by
            rw [lookupS_insertS_ne ss m.id sid _ (fun hq => hid hq.symm)]
            exact h
          simp [runSends, hsm, List.filter_cons, targets, harg, hid, ih _ ws h2]

/- ===== Claim theorems ===== -/

/-- Claim C1: for every session the serverSeq counter starts at 0 before the first
send, every message sent through send_message carries seq equal to the counter
incremented by exactly 1 pre-send, and across all outbound message kinds — the
server-initiated disconnect reply of a rejected connection included — the seq values a
session sends are exactly 1, 2, ..., n: strictly increasing with no repeated or
skipped value. -/
theorem claim_C1_server_seq_strictly_increasing (hdr : Headers) (env : Env)
    (calls : List SendCall) :
    initWs.server_seq = 0
    ∧ (∃ n, ((sessionWire hdr env calls).map (fun m => m.seq)) = List.range' 1 n)
    ∧ ((sessionWire hdr env calls).map (fun m => m.seq)).Pairwise (· < ·) := by
  have hmain : ∃ n, ((sessionWire hdr env calls).map (fun m => m.seq))
      = List.range' 1 n := by
    unfold sessionWire
    cases hg : handle_websocket_gate hdr env with
    | reject reason info code sid =>
      exact ⟨1, by simp [disconnect, disconnect_message, List.range']⟩
    | accepted sid =>
      exact ⟨(calls.filter (targets sid)).length,
        runSends_seqs calls (insertS [] sid initWs) sid initWs
          (lookupS_insertS_self [] sid initWs)⟩
  refine ⟨rfl, hmain, ?_⟩
  obtain ⟨n, hn⟩ := hmain
  rw [hn]
  exact pairwise_lt_range'_seq n 1

/-- Claim C2 (code bug witness): on the provider event path, send_message receives the
session-id-only dict the speech provider passes as client_message; reading the id
attribute of a plain dict raises AttributeError, so the event message is never built or
sent and carries no clientseq at all. -/
theorem claim_C2_event_path_attribute_error :
    send_message [("s1", initWs)]
        { type := .event, arg := .idDict "s1", params := .payload [] }
      = .error (.attributeError "id") := rfl

/-- Claim C3: a connection whose session-id header is empty is answered, with no
session registered and over the raw socket, by a disconnect message with reason error
and info No session ID provided, and the socket is closed with code 1008. -/
theorem claim_C3_missing_session_id (ss : Sessions) (hdr : Headers) (env : Env)
    (sock : Socket) (h : hdr.session_id = "") :
    handle_connection ss hdr env sock
      = .ok (some
          { sent := sock.sent ++
              [{ version := "2", type := .disconnect, seq := 1, clientseq := 1,
                 id := "unknown",
                 params := .disconnectP .error "No session ID provided" }],
            closeCode := some 1008 }, ss) := by
  simp [handle_connection, handle_websocket_gate, h, disconnect, disconnect_message,
    orUnknown, Except.map]

theorem claim_C3_witness :
    handle_connection [] ⟨"", "key", "corr", "si", "sg"⟩ ⟨some "key", some "sec"⟩
        { sent := [], closeCode := none }
      = .ok (some
          { sent :=
              [{ version := "2", type := .disconnect, seq := 1, clientseq := 1,
                 id := "unknown",
                 params := .disconnectP .error "No session ID provided" }],
            closeCode := some 1008 }, []) :=
  claim_C3_missing_session_id [] ⟨"", "key", "corr", "si", "sg"⟩
    ⟨some "key", some "sec"⟩ { sent := [], closeCode := none } rfl

/-- Claim C4: a connection whose X-Api-Key header does not equal the configured server
API key is answered by a disconnect message with reason unauthorized and info Invalid
API Key, the socket is closed with code 3000, and no session is registered. -/
theorem claim_C4_invalid_api_key (ss : Sessions) (hdr : Headers) (env : Env)
    (sock : Socket) (h1 : ¬ hdr.session_id = "")
    (h2 : ¬ env.api_key = some hdr.x_api_key) :
    handle_connection ss hdr env sock
      = .ok (some
          { sent := sock.sent ++
              [{ version := "2", type := .disconnect, seq := 1, clientseq := 1,
                 id := hdr.session_id,
                 params := .disconnectP .unauthorized "Invalid API Key" }],
            closeCode := some 3000 }, ss) := by
  simp [handle_connection, handle_websocket_gate, h1, h2, disconnect,
    disconnect_message, orUnknown, Except.map]

theorem claim_C4_witness :
    handle_connection [] ⟨"s1", "wrong", "corr", "si", "sg"⟩
        ⟨some "key", some "sec"⟩ { sent := [], closeCode := none }
      = .ok (some
          { sent :=
              [{ version := "2", type := .disconnect, seq := 1, clientseq := 1,
                 id := "s1",
                 params := .disconnectP .unauthorized "Invalid API Key" }],
            closeCode := some 3000 }, []) :=
  claim_C4_invalid_api_key [] ⟨"s1", "wrong", "corr", "si", "sg"⟩
    ⟨some "key", some "sec"⟩ { sent := [], closeCode := none }
    (by decide) (by decide)

/-- Claim C5: for a connection that passes the session-id and API-key checks, the
signature check rejects (disconnect with reason unauthorized, info Invalid signature,
close code 3000) exactly when signature input, signature and the configured shared
secret are all absent or empty; in particular a present but invalid signature is
accepted and the session registered. -/
theorem claim_C5_signature_gate (hdr : Headers) (env : Env)
    (h1 : ¬ hdr.session_id = "") (h2 : env.api_key = some hdr.x_api_key) :
    (handle_websocket_gate hdr env
        = .reject .unauthorized "Invalid signature" 3000 (some hdr.session_id)
      ↔ (hdr.signature_input = "" ∧ hdr.signature = ""
          ∧ env.client_secret.getD "" = ""))
    ∧ (¬ hdr.signature = "" →
        handle_websocket_gate hdr env = .accepted hdr.session_id) := by
  constructor
  · constructor
    · intro hr
      by_cases hc : hdr.signature_input = "" ∧ hdr.signature = ""
          ∧ env.client_secret.getD "" = ""
      · exact hc
      · simp [handle_websocket_gate, h1, h2, hc] at hr
    · intro hc
      simp [handle_websocket_gate, h1, h2, hc]
  · intro hs
    have hc : ¬ (hdr.signature_input = "" ∧ hdr.signature = ""
        ∧ env.client_secret.getD "" = "") := by
      intro hq
      exact hs hq.2.1
    simp [handle_websocket_gate, h1, h2, hc]

theorem claim_C5_witness :
    (handle_websocket_gate ⟨"s1", "key", "corr", "", ""⟩ ⟨some "key", none⟩
        = .reject .unauthorized "Invalid signature" 3000 (some "s1"))
    ∧ (handle_websocket_gate ⟨"s1", "key", "corr", "", "garbage"⟩ ⟨some "key", none⟩
        = .accepted "s1") := by
  constructor
  · exact (claim_C5_signature_gate ⟨"s1", "key", "corr", "", ""⟩ ⟨some "key", none⟩
      (by decide) rfl).1.mpr ⟨rfl, rfl, rfl⟩
  · exact (claim_C5_signature_gate ⟨"s1", "key", "corr", "", "garbage"⟩
      ⟨some "key", none⟩ (by decide) rfl).2 (by decide)

/-- Claim C6 counterexample: with the session registered and no socket argument —
exactly the situation in which the claim says the disconnect message goes out over the
stored socket handle — disconnect raises AttributeError (WebSocketSessionStorage stores
no websocket attribute and none is ever assigned), so nothing is sent and no socket is
closed with the given code. -/
theorem claim_C6_counterexample :
    disconnect [("s1", initWs)] .error "boom" 1008 (some "s1") none
      = .error (.attributeError "websocket") := rfl

/-- Claim C6 as amended: when a socket is passed in, disconnect sends the seq 1,
clientseq 1 disconnect message over that socket and closes it with the given code — the
passed-in socket takes precedence even for a registered session; when no socket is
passed and the session id is registered, the call raises AttributeError instead of
sending, because no websocket attribute is ever stored. -/
theorem claim_C6_disconnect_behaviour (ss : Sessions) (reason : DisconnectReason)
    (info : String) (code : Nat) (sid : Option String) (sock : Socket) :
    disconnect ss reason info code sid (some sock)
      = .ok (some { sent := sock.sent ++ [disconnect_message reason info sid],
                    closeCode := some code })
    ∧ (disconnect_message reason info sid).seq = 1
    ∧ (disconnect_message reason info sid).clientseq = 1
    ∧ (∀ s : Option String, (lookupS ss (orUnknown s)).isSome = true →
        disconnect ss reason info code s none = .error (.attributeError "websocket")) := by
  refine ⟨rfl, rfl, rfl, ?_⟩
  intro s hs
  unfold disconnect
  cases hl : lookupS ss (orUnknown s) with
  | none => rw [hl] at hs; simp at hs
  | some w => simp [hl]

theorem claim_C6_witness :
    disconnect [("s1", initWs)] DisconnectReason.error "boom" 1008 (some "s1")
        (some { sent := [], closeCode := none })
      = .ok (some { sent := [disconnect_message .error "boom" (some "s1")],
                    closeCode := some 1008 })
    ∧ disconnect [("s1", initWs)] DisconnectReason.error "boom" 1008 (some "s1") none
      = .error (.attributeError "websocket") := by
  have h := claim_C6_disconnect_behaviour [("s1", initWs)] .error "boom" 1008
    (some "s1") { sent := [], closeCode := none }
  exact ⟨h.1, h.2.2.2 (some "s1") (by decide)⟩

/-- Claim C7: handle_audio_frame never raises — for every session state, frame and
write outcome it returns normally — and on a session whose provider session was never
initialized it is a no-op that logs an error and leaves the session unchanged. -/
theorem claim_C7_audio_frame_never_raises (sid : String) (ws : WsSessionStorage)
    (media : MediaChannelInfo) (data : List Nat) (writeFails : Bool) :
    isOkE (handle_audio_frame sid ws media data writeFails) = true
    ∧ (∀ cs ssq cid,
        handle_audio_frame sid ⟨cs, ssq, cid, none⟩ media data writeFails
          = .ok (⟨cs, ssq, cid, none⟩,
              ["[" ++ sid ++ "] Session not initialized."])) := by
  constructor
  · cases hs : ws.speech_session with
    | none => simp [handle_audio_frame, hs, isOkE]
    | some sp =>
      cases writeFails with
      | true => simp [handle_audio_frame, hs, stream_write, isOkE]
      | false => simp [handle_audio_frame, hs, stream_write, isOkE]
  · intro cs ssq cid
    rfl

/-- Claim C8 (code bug witness): evaluated at an initialized session whose recognition
loop ran to completion, the awaited recognition task raises the AttributeError from
_await_pending_assist reading the undeclared assist_futures field, so shutdown_session
logs the swallowed error, never awaits the derived assist work, and still closes the
stream and invokes the finalize callback — the claimed await of still-pending derived
async work cannot happen on this source. -/
theorem claim_C8_assist_futures_attribute_error :
    run_recognize_task
        ⟨0, 0, none,
          some ⟨⟨[], false⟩, [], ⟨"audio", "PCMU", 8000, ["external"]⟩, .success⟩⟩
        ⟨⟨[], false⟩, [], ⟨"audio", "PCMU", 8000, ["external"]⟩, .success⟩
      = .attributeError "assist_futures"
    ∧ shutdown_session "s1"
        ⟨0, 0, none,
          some ⟨⟨[], false⟩, [], ⟨"audio", "PCMU", 8000, ["external"]⟩, .success⟩⟩
        false true
      = .ok { closeAttempted := true, bufferClosed := true, taskAwaited := true,
              assistAwaited := false,
              taskError := some (.attributeError "assist_futures"),
              logs := ["[s1] Recognition error: AttributeError: assist_futures"],
              finalized := true } := ⟨rfl, rfl⟩

theorem pad2_length_lt : ∀ n, n < 100 → (pad2 n).length = 2 := by decide

theorem roundHundredths_bound (t : Nat) :
    roundHundredths t * 100000 ≤ t + 50000
    ∧ t ≤ roundHundredths t * 100000 + 50000 := by
  unfold roundHundredths
  split
  · omega
  · split
    · omega
    · split
      · omega
      · omega

/-- Claim C9: every timing offset and duration crossing the provider boundary — the
transcript item start and end, the transcript entity offset and duration, the per-word
token offsets and durations, and the assist utterance position and duration — is the
100ns tick value t rendered as PT, then t / 10_000_000 seconds with exactly two decimal
places (correct to within half a hundredth), then S. -/
theorem claim_C9_tick_durations :
    (∀ t : Nat, ∃ whole frac : String,
        fmtTicks t = "PT" ++ whole ++ "." ++ frac ++ "S"
        ∧ frac.length = 2
        ∧ whole = toString (roundHundredths t / 100)
        ∧ frac = pad2 (roundHundredths t % 100)
        ∧ roundHundredths t * 100000 ≤ t + 50000
        ∧ t ≤ roundHundredths t * 100000 + 50000)
    ∧ (∀ cid txt fin off dur lang (w : WordInfo) (ws : List WordInfo), ∃ e,
        build_transcript_entity cid txt (w :: ws) fin off dur lang = .ok e
        ∧ e.data.offset = fmtTicks off
        ∧ e.data.duration = fmtTicks dur
        ∧ e.data.alternatives.map
              (fun a => a.tokens.map (fun tk => (tk.offset, tk.duration)))
            = [(w :: ws).map (fun wd => (fmtTicks wd.offset, fmtTicks wd.duration))])
    ∧ (∀ txt off dur ch mc (w : WordInfo) (ws : List WordInfo), ∃ o,
        on_recognized
            { status := none, text := txt, offset := some off, duration := some dur,
              nbest := some [{ words := some (w :: ws) }], channel := ch } mc
          = .ok (some o)
        ∧ o.item.start = fmtTicks off
        ∧ o.item.«end» = fmtTicks (off + dur)
        ∧ o.assist_offset = w.offset
        ∧ o.assist_duration = dur)
    ∧ (∀ off dur txt c,
        (handle_agent_assist_utterance off dur txt c).position = fmtTicks off
        ∧ (handle_agent_assist_utterance off dur txt c).duration = fmtTicks dur) := by
  refine ⟨?_, ?_, ?_, ?_⟩
  · intro t
    refine ⟨toString (roundHundredths t / 100), pad2 (roundHundredths t % 100),
      rfl, ?_, rfl, rfl, (roundHundredths_bound t).1, (roundHundredths_bound t).2⟩
    exact pad2_length_lt (roundHundredths t % 100) (Nat.mod_lt _ (by omega))
  · intro cid txt fin off dur lang w ws
    refine ⟨_, rfl, rfl, rfl, ?_⟩
    simp [build_transcript_entity]
  · intro txt off dur ch mc w ws
    exact ⟨_, rfl, rfl, rfl, rfl, rfl⟩
  · intro off dur txt c
    exact ⟨rfl, rfl⟩

/-- Claim C10: build_transcript_entity is only total for a non-empty words list — it
divides the summed word confidences by len(words) with no guard, raising
ZeroDivisionError on the empty list and succeeding on any non-empty one — and its
caller _on_recognized reaches that division with the empty list whenever the
recognition result has no NBest entry or its first NBest entry has no Words. -/
theorem claim_C10_empty_words_zero_division :
    (∀ cid txt fin off dur lang,
        build_transcript_entity cid txt [] fin off dur lang
          = .error .zeroDivisionError)
    ∧ (∀ cid txt fin off dur lang (w : WordInfo) (ws : List WordInfo),
        isOkE (build_transcript_entity cid txt (w :: ws) fin off dur lang) = true)
    ∧ (∀ txt off dur ch mc,
        on_recognized
            { status := none, text := txt, offset := off, duration := dur,
              nbest := none, channel := ch } mc
          = .error .zeroDivisionError)
    ∧ (∀ txt off dur ch mc,
        on_recognized
            { status := none, text := txt, offset := off, duration := dur,
              nbest := some [{ words := none }], channel := ch } mc
          = .error .zeroDivisionError) := by
  exact ⟨fun _ _ _ _ _ _ => rfl, fun _ _ _ _ _ _ _ _ => rfl,
    fun _ _ _ _ _ => rfl, fun _ _ _ _ _ => rfl⟩

end AudioHook
